import Mathlib

set_option autoImplicit false

/-!
Shallow embedding of the stock-check and offer-qualification core of the
fairgame fork (src/stores/amazon2.py, src/stores/amazon_ajax.py,
src/common/amazon_item_condition.py), with proofs about the embedded
definitions.  Monetary amounts are embedded as exact rationals; Python
exceptions are embedded as explicit error results.
-/

namespace FairGame

/-- Python whitespace predicate (the ASCII characters `str.split` and
`str.strip` split on: space, tab, newline, carriage return, vertical tab,
form feed), written via character codes. -/
def pyWS (c : Char) : Bool :=
  c.toNat = 32 || c.toNat = 9 || c.toNat = 10 || c.toNat = 13 ||
  c.toNat = 11 || c.toNat = 12

/-- Strip leading and trailing whitespace from a character list, as Python
`str.strip()`. -/
def stripChars (l : List Char) : List Char :=
  ((l.dropWhile pyWS).reverse.dropWhile pyWS).reverse

/-- Python `str.strip()`. -/
def pyStrip (s : String) : String := ⟨stripChars s.data⟩

/-- Python `str.upper()` (ASCII). -/
def pyUpper (s : String) : String := ⟨s.data.map Char.toUpper⟩

/-- Helper for `pySplit`: walk the characters, accumulating the current
token in reverse; whitespace ends the current token, runs of whitespace
produce no empty tokens (Python `str.split()` with no argument). -/
def splitWSAux : List Char → List Char → List (List Char)
  | [], acc => if acc.isEmpty then [] else [acc.reverse]
  | c :: cs, acc =>
    if pyWS c then
      (if acc.isEmpty then splitWSAux cs [] else acc.reverse :: splitWSAux cs [])
    else splitWSAux cs (c :: acc)

/-- Python `str.split()` with no argument: split on runs of whitespace,
discarding empty tokens. -/
def pySplit (s : String) : List String :=
  (splitWSAux s.data []).map fun l => ⟨l⟩

/-- Python substring test `needle in hay` on character lists. -/
def subIn (needle hay : List Char) : Bool :=
  hay.tails.any fun t => decide (t.take needle.length = needle)

/-- Python substring test `needle in hay` on strings. -/
def strIn (needle hay : String) : Bool := subIn needle.data hay.data

/-- The item-condition enumeration of
src/common/amazon_item_condition.py (also repeated verbatim at the bottom
of src/stores/amazon2.py).  Python's `Enum` aliases members with equal
values; here every declared name is its own constructor and `value` gives
the declared numeric value. -/
inductive AmazonItemCondition where
  | New
  | Renewed
  | Refurbished
  | Rental
  | Open_box
  | UsedLikeNew
  | UsedVeryGood
  | UsedGood
  | UsedAcceptable
  | CollectibleLikeNew
  | CollectibleVeryGood
  | CollectibleGood
  | CollectibleAcceptable
  | Unknown
deriving DecidableEq, Repr

/-- Declared numeric values of the condition enumeration (lower = more
desirable). -/
def AmazonItemCondition.value : AmazonItemCondition → Nat
  | .New => 10
  | .Renewed => 20
  | .Refurbished => 20
  | .Rental => 30
  | .Open_box => 40
  | .UsedLikeNew => 40
  | .UsedVeryGood => 50
  | .UsedGood => 60
  | .UsedAcceptable => 70
  | .CollectibleLikeNew => 40
  | .CollectibleVeryGood => 50
  | .CollectibleGood => 60
  | .CollectibleAcceptable => 70
  | .Unknown => 1000

/-- The member map of the enumeration (Python's `Enum._member_map_`):
every declared name keyed to its member. -/
def condMembers : List (String × AmazonItemCondition) :=
  [("New", .New), ("Renewed", .Renewed), ("Refurbished", .Refurbished),
   ("Rental", .Rental), ("Open_box", .Open_box),
   ("UsedLikeNew", .UsedLikeNew), ("UsedVeryGood", .UsedVeryGood),
   ("UsedGood", .UsedGood), ("UsedAcceptable", .UsedAcceptable),
   ("CollectibleLikeNew", .CollectibleLikeNew),
   ("CollectibleVeryGood", .CollectibleVeryGood),
   ("CollectibleGood", .CollectibleGood),
   ("CollectibleAcceptable", .CollectibleAcceptable),
   ("Unknown", .Unknown)]

/-- Lookup in the member map, `AmazonItemCondition[label]` (Python's
`Enum.__getitem__` keyed by name; a failed lookup raises `KeyError`,
embedded as `none`). -/
def condLookup (label : String) : Option AmazonItemCondition :=
  condMembers.lookup label

/-- The label cleanup of `AmazonItemCondition.from_str`:
`"".join(label.split())` removes every whitespace character, then
`.replace("-", "")` removes every hyphen (character code 45). -/
def cleanLabel (s : String) : String :=
  ⟨s.data.filter fun c => !(pyWS c) && (c.toNat != 45)⟩

/-- `AmazonItemCondition.from_str` (src/common/amazon_item_condition.py
lines 21-35): straight member lookup first; on `KeyError`, look up the
cleaned label; a second `KeyError` raises `NotImplementedError`, embedded
as `none`. -/
def from_str (label : String) : Option AmazonItemCondition :=
  match condLookup label with
  | some condition => some condition
  | none => condLookup (cleanLabel label)

/-- `get_item_condition` (src/common/amazon_item_condition.py lines
38-51): classify the add-to-cart form action by substring. -/
def get_item_condition (form_action : String) : AmazonItemCondition :=
  if strIn "_new_" form_action then .New
  else if strIn "_used_" form_action then .UsedGood
  else if strIn "_col_" form_action then .CollectibleGood
  else .Unknown

/-- Default relative tolerance of Python `math.isclose` (`rel_tol=1e-09`),
which the calls in `check_stock` leave at its default. -/
def relTol : ℚ := 1 / 1000000000

/-- Python `math.isclose(a, b, abs_tol=0.01)` over exact rationals:
`abs(a-b) <= max(rel_tol * max(abs(a), abs(b)), abs_tol)` with the default
`rel_tol` of `1e-09` still in effect. -/
def isclose (a b : ℚ) : Bool :=
  decide (|a - b| ≤ max (relTol * max |a| |b|) (1 / 100))

/-- The price-range test of `Amazon.check_stock`
(src/stores/amazon2.py lines 767-779): the first two conjuncts of the big
qualification `if`, mirroring the argument order of the source. -/
def price_range_ok (ship_float price_float reserve_min reserve_max : ℚ) : Bool :=
  (decide (ship_float + price_float ≤ reserve_max)
      || isclose (price_float + ship_float) reserve_max)
    && (decide (ship_float + price_float ≥ reserve_min)
      || isclose (price_float + ship_float) reserve_min)

/-- The condition skip test of `Amazon.check_stock`
(src/stores/amazon2.py line 735): `seller_item_condition.value >
self.condition.value` makes the loop `continue` past the offer. -/
def condition_too_low (v cap : AmazonItemCondition) : Bool :=
  decide (v.value > cap.value)

/-- The seller-identity conjunct of the qualification `if` in
`Amazon.check_stock` (src/stores/amazon2.py lines 780-784): three exact,
case-sensitive string comparisons. -/
def sellerOk (seller_name : String) : Bool :=
  decide (seller_name = "Amazon Resale") || decide (seller_name = "Amazon")
    || decide (seller_name = "Amazon.com")

/-- One offer of the offer-evaluation loop of `Amazon.check_stock`
(src/stores/amazon2.py lines 718-903), non-buy-box path: the per-index
facets the loop reads.  `shipping` is `shipping_prices[idx].amount` (absent
when the parsed shipping price had no numeric amount), `priceAmount` is
the parsed `prices[idx]` amount, `ariaLabel` is `sellers[idx]` (the
add-to-cart input's aria-label), `formAction` is the `action` of the
ancestor post form used for the condition check (absent when no such form
is found). -/
structure StockOffer where
  shipping : Option ℚ
  priceAmount : Option ℚ
  ariaLabel : String
  formAction : Option String
deriving DecidableEq, Repr

/-- Result of the offer-evaluation loop.  `bought` stands for entering the
qualification branch (src/stores/amazon2.py line 786: the purchase attempt
is out of scope here and abstracted as success), `noBuy` for `return
False` or falling off the loop, `pyError` for an uncaught Python
exception. -/
inductive StockResult where
  | bought (seller_name : String) (offer : StockOffer)
  | noBuy
  | pyError (msg : String)
deriving DecidableEq, Repr

/-- Body of the offer-evaluation loop after the shipping gate
(src/stores/amazon2.py lines 724-901).  `some r` means the body returns
`r` from `check_stock`; `none` means `continue` with the next offer.
Order mirrors the source: condition check (lines 727-741), aria-label
token extraction (lines 758-760, raising `IndexError` on fewer than six
tokens), the `price_float is None` early `return False` (lines 762-763),
`ship_float` defaulting to zero (lines 764-765), then the qualification
`if` (lines 767-785). -/
def evalOfferMain (cap : AmazonItemCondition) (reserve_min reserve_max : ℚ)
    (o : StockOffer) : Option StockResult :=
  if (match o.formAction with
      | some act => condition_too_low (get_item_condition act) cap
      | none => false) then
    none
  else
    match (pySplit o.ariaLabel).get? 5 with
    | none => some (.pyError "IndexError: list index out of range")
    | some seller_name =>
      match o.priceAmount with
      | none => some .noBuy
      | some price_float =>
        if price_range_ok (o.shipping.getD 0) price_float reserve_min reserve_max
            && sellerOk seller_name then
          some (.bought seller_name o)
        else
          none

/-- One iteration of the offer-evaluation loop, including the shipping
gate (src/stores/amazon2.py lines 721-722): when `check_shipping` is
false, a positive `amount_float` makes the loop `continue`, and an absent
amount raises `TypeError` (`None > 0.00`). -/
def evalOffer (check_shipping : Bool) (cap : AmazonItemCondition)
    (reserve_min reserve_max : ℚ) (o : StockOffer) : Option StockResult :=
  if check_shipping then evalOfferMain cap reserve_min reserve_max o
  else
    match o.shipping with
    | none => some (.pyError "TypeError: NoneType comparison")
    | some a =>
      if a > 0 then none else evalOfferMain cap reserve_min reserve_max o

/-- The offer-evaluation loop of `Amazon.check_stock`
(src/stores/amazon2.py lines 716-903): offers are visited in extraction
order; a body result returns from `check_stock`, otherwise the loop
continues; falling off the end returns `in_stock`, still `False` on this
path (line 903). -/
def check_stock_offers (check_shipping : Bool) (cap : AmazonItemCondition)
    (reserve_min reserve_max : ℚ) : List StockOffer → StockResult
  | [] => .noBuy
  | o :: rest =>
    match evalOffer check_shipping cap reserve_min reserve_max o with
    | some r => r
    | none => check_stock_offers check_shipping cap reserve_min reserve_max rest

/-- `DEFAULT_MAX_URL_FAIL` (src/stores/amazon2.py line 78). -/
def DEFAULT_MAX_URL_FAIL : Nat := 5

/-- Outcome of the initial page-load retry loop of `Amazon.check_stock`
(src/stores/amazon2.py lines 448-491): `proceeded` means the load
succeeded and stock checking continues past the loop; `fatal` means
`RuntimeError("Failed to restart bot")` was raised; `recreated` means the
driver was deleted and recreated successfully and `check_stock` returned
`False`. -/
inductive LoadResult where
  | proceeded
  | fatal
  | recreated
deriving DecidableEq, Repr

/-- The initial page-load retry loop (src/stores/amazon2.py lines
448-491), with the attempts of `self.get_page` numbered from `k` and
`remaining = DEFAULT_MAX_URL_FAIL - fail_counter` failures still allowed:
a failure with `fail_counter < DEFAULT_MAX_URL_FAIL` sleeps three seconds
(not modelled) and retries; at the fifth failure the driver is deleted and
recreated, a failure of either step raising `RuntimeError`. -/
def load_loop (attempt : Nat → Bool) (deleteOk createOk : Bool) :
    Nat → Nat → LoadResult
  | _, 0 => if !deleteOk then .fatal else if !createOk then .fatal else .recreated
  | k, remaining + 1 =>
    if attempt k then .proceeded
    else load_loop attempt deleteOk createOk (k + 1) remaining

/-- The page-load phase of `Amazon.check_stock`, starting with
`fail_counter = 0`. -/
def check_stock_load (attempt : Nat → Bool) (deleteOk createOk : Bool) :
    LoadResult :=
  load_loop attempt deleteOk createOk 0 DEFAULT_MAX_URL_FAIL

/-- One parsed offer of the hybrid implementation, built by
`AmazonStoreHandler.parse_offer` (src/stores/amazon_ajax.py lines
655-694).  The class itself (`SellerDetail` of common/amazon_support.py)
is not under src; its fields follow the spec's Offer data model: seller
name, parsed price (absent on parse failure), shipping cost, condition,
and opaque offer identifier. -/
structure SellerDetail where
  name : String
  price : Option ℚ
  shipping_cost : ℚ
  condition : AmazonItemCondition
  offering_id : Option String
deriving DecidableEq, Repr

/-- One tracked item of the hybrid implementation (`FGItem` of
common/amazon_support.py, not under src); fields follow the spec's
TrackedItem data model: item identifier, `group_id` linking sibling
identifiers, acceptable total-price range, minimum acceptable
condition. -/
structure FGItem where
  id : String
  group_id : String
  min_price : ℚ
  max_price : ℚ
  condition : AmazonItemCondition
deriving DecidableEq, Repr

/-- `free_shipping_check` (src/stores/amazon_ajax.py lines 104-108). -/
def free_shipping_check (seller : SellerDetail) : Bool :=
  if seller.shipping_cost > 0 then false else true

/-- Modelled from the spec: `condition_check` of common/amazon_support.py
is not under src; spec 4.2 (3): the offer qualifies on condition iff
`offer.condition.value <= item.condition.value`. -/
def condition_check (item : FGItem) (seller : SellerDetail) : Bool :=
  decide (seller.condition.value ≤ item.condition.value)

/-- Modelled from the spec: `price_check` of common/amazon_support.py is
not under src; spec 4.2 (2): `item.min_price <= price+shipping <=
item.max_price` with equality tolerant to an absolute epsilon of 0.01,
and spec 4.2 edge case: a price that parsed to no value disqualifies the
offer. -/
def price_check (item : FGItem) (seller : SellerDetail) : Bool :=
  match seller.price with
  | none => false
  | some p =>
    let total := p + seller.shipping_cost
    (decide (item.min_price ≤ total) || decide (|total - item.min_price| ≤ 1 / 100))
      && (decide (total ≤ item.max_price) || decide (|total - item.max_price| ≤ 1 / 100))

/-- `AmazonStoreHandler.find_qualified_seller` (src/stores/amazon_ajax.py
lines 407-424): iterate the extracted sellers; a failed shipping,
condition, or price hurdle executes a bare `return` (returning `None`),
and passing all three hurdles returns the seller, so every path through
the loop body returns during the first iteration. -/
def find_qualified_seller (check_shipping : Bool) (item : FGItem) :
    List SellerDetail → Option SellerDetail
  | [] => none
  | seller :: _rest =>
    if !check_shipping && !free_shipping_check seller then none
    else if !condition_check item seller then none
    else if !price_check item seller then none
    else some seller

/-- Helper for `run_group_removal`: Python iterates `self.item_list` by an
index cursor while `list.remove` deletes the first element equal to the
current item, so after a removal the element that shifted into the removed
slot is skipped by the next cursor step. -/
def removeGo (group_id_to_remove : String) (l : List FGItem) (i : Nat) :
    List FGItem :=
  if h : i < l.length then
    removeGo group_id_to_remove
      (if (l.get ⟨i, h⟩).group_id = group_id_to_remove then l.erase (l.get ⟨i, h⟩)
       else l) (i + 1)
  else l
termination_by l.length - i
decreasing_by
  split
  · have hle := (List.erase_sublist (l.get ⟨i, h⟩) l).length_le
    omega
  · omega

/-- The group-removal pass of `AmazonStoreHandler.run`
(src/stores/amazon_ajax.py lines 386-391): `for item in self.item_list:
if item.group_id == group_id_to_remove: self.item_list.remove(item)`. -/
def run_group_removal (item_list : List FGItem) (group_id_to_remove : String) :
    List FGItem :=
  removeGo group_id_to_remove item_list 0

/-- `Amazon.remove_asin_list` (src/stores/amazon2.py lines 1044-1051):
find the first ASIN sub-list containing the purchased ASIN and pop it,
with the aligned `reserve_max` and `reserve_min` entries; the lists are
traversed in lockstep. -/
def remove_asin_list (asin : String) :
    List (List String) → List ℚ → List ℚ →
      List (List String) × List ℚ × List ℚ
  | [], mns, mxs => ([], mns, mxs)
  | gs, [], mxs => (gs, [], mxs)
  | gs, mns, [] => (gs, mns, [])
  | g :: gs, mn :: mns, mx :: mxs =>
    if asin ∈ g then (gs, mns, mxs)
    else
      let r := remove_asin_list asin gs mns mxs
      (g :: r.1, mn :: r.2.1, mx :: r.2.2)

/-- A price value of the external `price_parser` library: an optional
currency symbol and an optional exact amount. -/
structure PyPrice where
  currency : Option String
  amount : Option ℚ
deriving DecidableEq, Repr

/-- `FREE_SHIPPING_PRICE = parse_price("0.00")`
(src/stores/amazon2.py line 66): amount zero, no currency symbol. -/
def FREE_SHIPPING_PRICE : PyPrice := ⟨none, some 0⟩

/-- Numeric value of a digit run (most significant first). -/
def digitsToNat (ds : List Char) : Nat :=
  ds.foldl (fun n c => 10 * n + (c.toNat - 48)) 0

/-- Digit predicate by character code. -/
def isDigitC (c : Char) : Bool := 48 ≤ c.toNat && c.toNat ≤ 57

/-- Parse a decimal number `digits[.digits]` at the head of the list. -/
def parseDecimal (l : List Char) : Option ℚ :=
  match l.takeWhile isDigitC with
  | [] => none
  | ip =>
    match l.dropWhile isDigitC with
    | c :: rest =>
      if c.toNat = 46 then
        let fp := rest.takeWhile isDigitC
        some ((digitsToNat ip : ℚ) + (digitsToNat fp : ℚ) / (10 : ℚ) ^ fp.length)
      else some (digitsToNat ip : ℚ)
    | [] => some (digitsToNat ip : ℚ)

/-- Model of the external `price_parser.parse_price` on the shapes that
occur here: an optional leading plus sign (code 43), an optional dollar
currency symbol (code 36), then a decimal number.  Text without a leading
number yields no amount; the currency is reported only when the symbol is
present. -/
def parse_price (s : String) : PyPrice :=
  let l := s.data
  let l1 := match l with
    | c :: rest => if c.toNat = 43 then rest else l
    | [] => l
  match l1 with
  | c :: rest =>
    if c.toNat = 36 then ⟨some "$", parseDecimal rest⟩
    else ⟨none, parseDecimal l1⟩
  | [] => ⟨none, none⟩

/-- The whitespace scrub `re.sub(r"(?:\s+|(?:&nbsp;)+)", "", text)` used
before every `parse_price` call in src/stores/amazon2.py: a left-to-right
scan dropping whitespace characters and literal `&nbsp;` sequences. -/
def removeWS : List Char → List Char
  | [] => []
  | a :: m :: p :: q :: r :: semi :: rest =>
    if pyWS a then removeWS (m :: p :: q :: r :: semi :: rest)
    else if a.toNat = 38 && m.toNat = 110 && p.toNat = 98 && q.toNat = 115
        && r.toNat = 112 && semi.toNat = 59 then
      removeWS rest
    else a :: removeWS (m :: p :: q :: r :: semi :: rest)
  | c :: cs => if pyWS c then removeWS cs else c :: removeWS cs

/-- String version of `removeWS`. -/
def scrub (s : String) : String := ⟨removeWS s.data⟩

/-- An element node as the shipping parser queries it, with the lxml
facets read by `get_alt_shipping_costs`: tag name, own text (lxml `.text`
is `None` for an element with no leading text), texts of descendant spans
(`.//span`), texts of direct span children (`findall("span")`), texts of
direct bold children (`findall("b")`), and aria-labels of `i` elements
with that attribute. -/
structure ShipNode where
  tag : String
  text : Option String
  descSpanTexts : List (Option String)
  childSpanTexts : List (Option String)
  childBTexts : List (Option String)
  iAriaLabels : List String
deriving DecidableEq, Repr

/-- An offer fragment as the shipping parser queries it: the texts of the
unified-delivery message spans (src/stores/amazon2.py line 1837) and the
nodes following an `aod-bottlingDepositFee` div (line 1875). -/
structure OfferFragment where
  unifiedTexts : List (Option String)
  bottlingSiblings : List ShipNode
deriving DecidableEq, Repr

/-- The free-shipping phrase test of src/stores/amazon2.py lines
1846-1849 and 1962-1965: `shipping_span_text.upper() in free_message` for
some configured `free_message`, i.e. the uppercased text is a substring of
a configured phrase. -/
def freeMatch (text : String) (free_shipping_strings : List String) : Bool :=
  free_shipping_strings.any fun free_message => strIn (pyUpper text) free_message

/-- The descendant-span scan of the `div` branch of
`get_alt_shipping_costs` (src/stores/amazon2.py lines 1901-1916): the
first span whose text is truthy and not `"+"` and parses with a currency
symbol is returned. -/
def findSpanPrice (texts : List (Option String)) : Option PyPrice :=
  match texts with
  | [] => none
  | t? :: rest =>
    match t? with
    | none => findSpanPrice rest
    | some t =>
      if t ≠ "" && t ≠ "+" then
        let shipping_cost := parse_price (scrub (pyStrip t))
        if shipping_cost.currency ≠ none then some shipping_cost
        else findSpanPrice rest
      else findSpanPrice rest

/-- Python `text.startswith("+")` (plus sign is character code 43). -/
def startsPlus (t : String) : Bool :=
  match t.data with
  | c :: _ => c.toNat = 43
  | [] => false

/-- The bold-children scan of the `span` branch of
`get_alt_shipping_costs` (src/stores/amazon2.py lines 1949-1957): every
bold child is visited only for logging, but a child whose text is `None`
raises `AttributeError` at `message_node.text.upper()`. -/
def bScanRaises (texts : List (Option String)) : Bool :=
  texts.any fun t? => t? = none

/-- `get_alt_shipping_costs` (src/stores/amazon2.py lines 1869-1974).
The function returns `FREE_SHIPPING_PRICE` on every path that does not
find a parseable price, except two spots where a child element without
text makes Python raise `AttributeError` (`None` has no `strip`/`upper`):
line 1942 (`shipping_spans[0].text.strip()`) and line 1952
(`message_node.text.upper()`).  Errors are embedded as `.error`. -/
def get_alt_shipping_costs (frag : OfferFragment)
    (free_shipping_string : List String) : Except String PyPrice :=
  match frag.bottlingSiblings with
  | [] => .ok FREE_SHIPPING_PRICE
  | shipping_node :: _ =>
    let shipping_span_text := pyStrip ((shipping_node.text).getD "")
    if shipping_node.tag = "div" then
      match findSpanPrice shipping_node.descSpanTexts with
      | some p => .ok p
      | none => .ok FREE_SHIPPING_PRICE
    else if shipping_node.tag = "span" then
      match shipping_node.childSpanTexts with
      | t? :: _ =>
        match t? with
        | none => .error "AttributeError: NoneType object has no attribute strip"
        | some t =>
          if pyStrip t = "&" then .ok FREE_SHIPPING_PRICE
          else if startsPlus t then
            .ok (parse_price (scrub (pyStrip t)))
          else .ok FREE_SHIPPING_PRICE
      | [] =>
        match shipping_node.childBTexts with
        | _ :: _ =>
          if bScanRaises shipping_node.childBTexts then
            .error "AttributeError: NoneType object has no attribute upper"
          else .ok FREE_SHIPPING_PRICE
        | [] =>
          match shipping_node.iAriaLabels with
          | _ :: _ => .ok FREE_SHIPPING_PRICE
          | [] =>
            if freeMatch shipping_span_text free_shipping_string then
              .ok FREE_SHIPPING_PRICE
            else .ok FREE_SHIPPING_PRICE
    else .ok FREE_SHIPPING_PRICE

/-- `get_shipping_costs` (src/stores/amazon2.py lines 1834-1866): read
the first unified-delivery span; a truthy text matching a free-shipping
phrase returns zero, a text parsing with a currency symbol returns the
parsed price, and every other shape falls through to
`get_alt_shipping_costs`. -/
def get_shipping_costs (frag : OfferFragment)
    (free_shipping_string : List String) : Except String PyPrice :=
  match frag.unifiedTexts with
  | t? :: _ =>
    match t? with
    | some t =>
      if t ≠ "" then
        let shipping_span_text := pyStrip t
        if freeMatch shipping_span_text free_shipping_string then
          .ok FREE_SHIPPING_PRICE
        else
          let shipping_cost := parse_price (scrub shipping_span_text)
          if shipping_cost.currency ≠ none then .ok shipping_cost
          else get_alt_shipping_costs frag free_shipping_string
      else get_alt_shipping_costs frag free_shipping_string
    | none => get_alt_shipping_costs frag free_shipping_string
  | [] => get_alt_shipping_costs frag free_shipping_string

/-- A JSON price field of the hybrid configuration: either a string (fed
to `parse_price`) or a number (wrapped directly in a `Price`). -/
inductive JPrice where
  | str (s : String)
  | num (q : ℚ)
deriving DecidableEq, Repr

/-- Rational value of a configured price field, as
`AmazonStoreHandler.parse_items` builds it (src/stores/amazon_ajax.py
lines 452-461); an amount the parser could not find is collapsed to zero
here (the claims under proof never exercise that corner). -/
def jpriceToRat : JPrice → ℚ
  | .str s => (parse_price s).amount.getD 0
  | .num q => q

/-- One JSON item entry of the hybrid configuration, with each key
`Option`al to model its presence in the JSON object: `max-price`,
`min-price`, `asins` (a string or an array of strings), `condition`. -/
structure RawItem where
  maxPrice : Option JPrice
  minPrice : Option JPrice
  asins : Option (String ⊕ List String)
  condition : Option String
deriving DecidableEq, Repr

/-- Python `str.split(",")` (comma is character code 44): split at every
comma, keeping empty pieces. -/
def splitComma (s : String) : List String :=
  (List.splitOnP (fun c => c.toNat = 44) s.data).map fun l => ⟨l⟩

/-- `AmazonStoreHandler.parse_items` (src/stores/amazon_ajax.py lines
445-491), processing entries in order with `g` numbering the fresh
`group_id`s (`str(uuid.uuid4())` is drawn once per fully-qualified entry;
the model keeps only its freshness).  An entry missing any of `max-price`,
`asins`, `min-price` only logs an error and is skipped; a string `asins`
is recovered by splitting on commas; an unrecognized `condition` label
raises `KeyError` out of `parse_condition` (src/stores/amazon_ajax.py
lines 974-975), embedded as `.error`. -/
def parse_items_from (g : Nat) : List RawItem → Except String (List FGItem)
  | [] => .ok []
  | json_item :: rest =>
    match json_item.maxPrice, json_item.asins, json_item.minPrice with
    | some mx, some asins0, some mn =>
      let condResult : Except String AmazonItemCondition :=
        match json_item.condition with
        | some label =>
          match condLookup label with
          | some c => .ok c
          | none => .error "KeyError in parse_condition"
        | none => .ok .New
      match condResult with
      | .error e => .error e
      | .ok condition =>
        let asins_collection := match asins0 with
          | .inl s => splitComma s
          | .inr l => l
        let group_id := "uuid-" ++ toString g
        match parse_items_from (g + 1) rest with
        | .error e => .error e
        | .ok tail =>
          .ok ((asins_collection.map fun asin =>
            FGItem.mk asin group_id (jpriceToRat mn) (jpriceToRat mx) condition)
            ++ tail)
    | _, _, _ => parse_items_from g rest

/-- `AmazonStoreHandler.parse_config` (src/stores/amazon_ajax.py lines
426-443): `none` models a missing configuration file
(`FileNotFoundError`), which exits with code 1; otherwise the `items`
node is handed to `parse_items`. -/
def parse_config (file : Option (List RawItem)) :
    Except String (List FGItem) :=
  match file with
  | none => .error "exit(1): configuration file not found"
  | some json_items => parse_items_from 0 json_items

/-- One `itemList` entry of the browser-driven configuration
(src/stores/amazon2.py), with each required key `Option`al to model its
presence: `asins`, `min`, `max`. -/
structure A2Item where
  asins : Option (List String)
  min : Option ℚ
  max : Option ℚ
deriving DecidableEq, Repr

/-- Fatal startup exits of `Amazon.load_asin_config`. -/
inductive ConfigFatal where
  | noConfigFile
  | emptyItemList
  | badItem
  | minOverMax
deriving DecidableEq, Repr

/-- The item loop of `Amazon.load_asin_config` (src/stores/amazon2.py
lines 1795-1809).  A missing `asins`, `min` or `max` key raises `KeyError`
inside the `try` that wraps the whole loop, whose handler logs and calls
`exit(0)` — so one malformed entry aborts the program, embedded as
`.error .badItem`.  A falsy `max` (`item["max"] or min_price`) falls back
to `min`; `min > max` exits with the sanity-check message. -/
def load_asin_items : List A2Item →
    Except ConfigFatal (List (List String) × List ℚ × List ℚ)
  | [] => .ok ([], [], [])
  | item :: rest =>
    match item.asins, item.min, item.max with
    | some asins, some mn, some mx =>
      let min_price := mn
      let max_price := if mx = 0 then min_price else mx
      if min_price > max_price then .error .minOverMax
      else
        match load_asin_items rest with
        | .error e => .error e
        | .ok r => .ok (asins :: r.1, min_price :: r.2.1, max_price :: r.2.2)
    | _, _, _ => .error .badItem

/-- `Amazon.load_asin_config` (src/stores/amazon2.py lines 1784-1821):
`none` models a missing configuration file (`exit(0)` after the error
message); an `itemList` with no entries is fatal (`exit(0)`); then the
item loop runs under the catch-all `try`. -/
def load_asin_config (file : Option (List A2Item)) :
    Except ConfigFatal (List (List String) × List ℚ × List ℚ) :=
  match file with
  | none => .error .noConfigFile
  | some itemList =>
    if itemList.length ≤ 0 then .error .emptyItemList
    else load_asin_items itemList

/-- Statement of the spec's price-range property in the claim's own
words, for comparison with `price_range_ok`: the total lies between the
bounds, or within an absolute epsilon of 0.01 of either bound. -/
def in_range_eps (total reserve_min reserve_max : ℚ) : Prop :=
  (reserve_min ≤ total ∧ total ≤ reserve_max)
    ∨ |total - reserve_min| ≤ 1 / 100
    ∨ |total - reserve_max| ≤ 1 / 100

/-- Scenario offer: third-party seller at 110, free shipping, condition
New, aria-label carrying the seller name as its sixth token. -/
def tpOffer : StockOffer :=
  ⟨some 0, some 110, "Add to Cart from seller ThirdPartyCo price 110.00",
    some "submit_new_offer"⟩

/-- Scenario offer: Amazon at 115, free shipping, condition New. -/
def azOffer : StockOffer :=
  ⟨some 0, some 115, "Add to Cart from seller Amazon price 115.00",
    some "submit_new_offer"⟩

/-- An offer whose add-to-cart form action marks it as used
(`get_item_condition` yields `UsedGood`). -/
def usedOffer : StockOffer :=
  ⟨some 0, some 110, "Add to Cart from seller Amazon price 110.00",
    some "submit_used_offer"⟩

/-- Scenario tracked item: range 100.00 to 120.00, condition cap New. -/
def itemC1 : FGItem := ⟨"B000TEST", "group-1", 100, 120, .New⟩

/-- Scenario seller detail: ThirdPartyCo at 110, free shipping, New. -/
def tpSeller : SellerDetail := ⟨"ThirdPartyCo", some 110, 0, .New, some "OID1"⟩

/-- Scenario seller detail: Amazon at 115, free shipping, New. -/
def azSeller : SellerDetail := ⟨"Amazon", some 115, 0, .New, some "OID2"⟩

/-- Two tracked items sharing one purchase group. -/
def itemA : FGItem := ⟨"ASIN-A", "group-7", 100, 120, .New⟩

/-- Second member of the same purchase group as `itemA`. -/
def itemB : FGItem := ⟨"ASIN-B", "group-7", 100, 120, .New⟩

/-- A configured free-shipping phrase set (the deployed configuration
stores the phrases uppercased; the phrase test uppercases only the page
text). -/
def freeShippingPhrases : List String :=
  ["FREE SHIPPING", "FREE PRIME DELIVERY"]

/-- Fragment whose unified delivery message reads `FREE Shipping`. -/
def fragFree : OfferFragment := ⟨[some "FREE Shipping"], []⟩

/-- Fragment whose unified delivery message reads `+ $5.00`. -/
def fragPaid : OfferFragment := ⟨[some "+ $5.00"], []⟩

/-- Fragment with no shipping nodes at all. -/
def fragAbsent : OfferFragment := ⟨[], []⟩

/-- Fragment with no unified delivery message whose bottling-deposit
sibling is a span element whose first child span carries no text: the
shape on which line 1942 of src/stores/amazon2.py dereferences `None`. -/
def fragBad : OfferFragment := ⟨[], [⟨"span", none, [], [none], [], []⟩]⟩

/-- A fully qualified hybrid-config item entry. -/
def goodRaw1 : RawItem := ⟨some (.num 120), some (.num 100), some (.inr ["R1"]), none⟩

/-- A hybrid-config item entry missing the required `min-price` key. -/
def badRaw : RawItem := ⟨some (.num 120), none, some (.inr ["R2"]), none⟩

/-- A second fully qualified hybrid-config item entry (string price,
comma-packed asins string, explicit condition). -/
def goodRaw2 : RawItem :=
  ⟨some (.str "$90.00"), some (.num 50), some (.inl "R3,R4"), some "UsedGood"⟩

/-- A fully qualified browser-driven config entry. -/
def goodA2Item : A2Item := ⟨some ["ASIN-1"], some 100, some 200⟩

/-- A browser-driven config entry missing the required `asins` key. -/
def badA2Item : A2Item := ⟨none, some 100, some 200⟩

/-- The shipping gate of the loop skips an offer: `check_shipping` is off
and the parsed shipping amount is positive (src/stores/amazon2.py lines
721-722). -/
def shipping_skip (check_shipping : Bool) (o : StockOffer) : Prop :=
  check_shipping = false ∧ ∃ sa, o.shipping = some sa ∧ sa > 0

/-- The condition gate of the loop skips an offer: a post form was found
and its action classifies the offer below the configured condition
(src/stores/amazon2.py lines 727-741). -/
def condition_skip (cap : AmazonItemCondition) (o : StockOffer) : Prop :=
  ∃ act, o.formAction = some act
    ∧ condition_too_low (get_item_condition act) cap = true

theorem evalOfferMain_bought_sellerOk (cap : AmazonItemCondition)
    (rmin rmax : ℚ) (o : StockOffer) (s : String) (o' : StockOffer)
    (h : evalOfferMain cap rmin rmax o = some (.bought s o')) :
    sellerOk s = true := by
  unfold evalOfferMain at h
  split at h
  · exact Option.noConfusion h
  · split at h
    · exact StockResult.noConfusion (Option.some.inj h)
    · split at h
      · exact StockResult.noConfusion (Option.some.inj h)
      · split at h
        · rename_i hq
          obtain ⟨h1, h2⟩ := StockResult.bought.inj (Option.some.inj h)
          subst h1
          exact (Bool.and_eq_true _ _ |>.mp hq).2
        · exact Option.noConfusion h

theorem check_stock_cons_skip (cs : Bool) (cap : AmazonItemCondition)
    (rmin rmax : ℚ) (o : StockOffer) (rest : List StockOffer)
    (h : evalOffer cs cap rmin rmax o = none) :
    check_stock_offers cs cap rmin rmax (o :: rest)
      = check_stock_offers cs cap rmin rmax rest := by
  have hstep : check_stock_offers cs cap rmin rmax (o :: rest)
      = match evalOffer cs cap rmin rmax o with
        | some r => r
        | none => check_stock_offers cs cap rmin rmax rest := rfl
  rw [hstep, h]

theorem check_stock_cons_result (cs : Bool) (cap : AmazonItemCondition)
    (rmin rmax : ℚ) (o : StockOffer) (rest : List StockOffer) (r : StockResult)
    (h : evalOffer cs cap rmin rmax o = some r) :
    check_stock_offers cs cap rmin rmax (o :: rest) = r := by
  have hstep : check_stock_offers cs cap rmin rmax (o :: rest)
      = match evalOffer cs cap rmin rmax o with
        | some r => r
        | none => check_stock_offers cs cap rmin rmax rest := rfl
  rw [hstep, h]

theorem evalOffer_bought_sellerOk (cs : Bool) (cap : AmazonItemCondition)
    (rmin rmax : ℚ) (o : StockOffer) (s : String) (o' : StockOffer)
    (h : evalOffer cs cap rmin rmax o = some (.bought s o')) :
    sellerOk s = true := by
  unfold evalOffer at h
  split at h
  · exact evalOfferMain_bought_sellerOk _ _ _ _ _ _ h
  · split at h
    · exact StockResult.noConfusion (Option.some.inj h)
    · split at h
      · exact Option.noConfusion h
      · exact evalOfferMain_bought_sellerOk _ _ _ _ _ _ h

theorem check_stock_offers_bought_sellerOk (cs : Bool)
    (cap : AmazonItemCondition) (rmin rmax : ℚ) :
    ∀ (offers : List StockOffer) (s : String) (o : StockOffer),
      check_stock_offers cs cap rmin rmax offers = .bought s o →
      sellerOk s = true := by
  intro offers
  induction offers with
  | nil => intro s o h; exact StockResult.noConfusion h
  | cons a rest ih =>
    intro s o h
    cases he : evalOffer cs cap rmin rmax a with
    | some r =>
      rw [check_stock_cons_result cs cap rmin rmax a rest r he] at h
      rw [h] at he
      exact evalOffer_bought_sellerOk _ _ _ _ _ _ _ he
    | none =>
      rw [check_stock_cons_skip cs cap rmin rmax a rest he] at h
      exact ih s o h

theorem evalOffer_shipping_skip (cs : Bool) (cap : AmazonItemCondition)
    (rmin rmax : ℚ) (o : StockOffer) (sa : ℚ) (hcs : cs = false)
    (hsa : o.shipping = some sa) (hpos : sa > 0) :
    evalOffer cs cap rmin rmax o = none := by
  subst hcs
  unfold evalOffer
  simp only [Bool.false_eq_true, if_false, hsa]
  rw [if_pos hpos]

theorem evalOffer_eq_main (cs : Bool) (cap : AmazonItemCondition)
    (rmin rmax : ℚ) (o : StockOffer) (sa : ℚ) (hsa : o.shipping = some sa)
    (h : cs = true ∨ ¬ sa > 0) :
    evalOffer cs cap rmin rmax o = evalOfferMain cap rmin rmax o := by
  unfold evalOffer
  rcases h with h | h
  · rw [if_pos h]
  · cases hc : cs
    · simp only [Bool.false_eq_true, if_false, hsa]
      rw [if_neg h]
    · rw [if_pos rfl]

theorem evalOfferMain_condition_skip (cap : AmazonItemCondition)
    (rmin rmax : ℚ) (o : StockOffer) (act : String)
    (hact : o.formAction = some act)
    (hlow : condition_too_low (get_item_condition act) cap = true) :
    evalOfferMain cap rmin rmax o = none := by
  unfold evalOfferMain
  rw [if_pos]
  rw [hact]
  exact hlow

theorem evalOfferMain_no_condition_skip (cap : AmazonItemCondition)
    (o : StockOffer) (h : ¬ condition_skip cap o) :
    (match o.formAction with
      | some act => condition_too_low (get_item_condition act) cap
      | none => false) = false := by
  cases hact : o.formAction with
  | none => rfl
  | some act =>
    show condition_too_low (get_item_condition act) cap = false
    cases hlow : condition_too_low (get_item_condition act) cap with
    | false => rfl
    | true => exact absurd ⟨act, hact, hlow⟩ h

theorem evalOfferMain_fail_filters (cap : AmazonItemCondition)
    (rmin rmax : ℚ) (o : StockOffer) (pa : ℚ) (tok : String)
    (htok : (pySplit o.ariaLabel).get? 5 = some tok)
    (hpa : o.priceAmount = some pa)
    (hfail : (price_range_ok (o.shipping.getD 0) pa rmin rmax
        && sellerOk tok) = false) :
    evalOfferMain cap rmin rmax o = none := by
  unfold evalOfferMain
  split
  · rfl
  · simp only [htok, hpa, hfail]
    rfl

theorem evalOfferMain_qualify (cap : AmazonItemCondition)
    (rmin rmax : ℚ) (o : StockOffer) (pa : ℚ) (tok : String)
    (hns : ¬ condition_skip cap o)
    (htok : (pySplit o.ariaLabel).get? 5 = some tok)
    (hpa : o.priceAmount = some pa)
    (hok : (price_range_ok (o.shipping.getD 0) pa rmin rmax
        && sellerOk tok) = true) :
    evalOfferMain cap rmin rmax o = some (.bought tok o) := by
  unfold evalOfferMain
  simp only [evalOfferMain_no_condition_skip cap o hns, htok, hpa, hok]
  rfl

theorem splitWSAux_ws_free : ∀ (l acc : List Char),
    (∀ c ∈ acc, pyWS c = false) →
    ∀ t ∈ splitWSAux l acc, ∀ c ∈ t, pyWS c = false := by
  intro l
  induction l with
  | nil =>
    intro acc hacc t ht c hc
    unfold splitWSAux at ht
    split at ht
    · exact absurd ht (List.not_mem_nil t)
    · rcases List.mem_singleton.mp ht with rfl
      exact hacc c (List.mem_reverse.mp hc)
  | cons a as ih =>
    intro acc hacc t ht c hc
    unfold splitWSAux at ht
    split at ht
    · split at ht
      · exact ih [] (by intro d hd; exact absurd hd (List.not_mem_nil d)) t ht c hc
      · rcases List.mem_cons.mp ht with rfl | ht2
        · exact hacc c (List.mem_reverse.mp hc)
        · exact ih [] (by intro d hd; exact absurd hd (List.not_mem_nil d)) t ht2 c hc
    · rename_i hws
      refine ih (a :: acc) ?_ t ht c hc
      intro d hd
      rcases List.mem_cons.mp hd with rfl | hd2
      · exact Bool.not_eq_true _ |>.mp hws
      · exact hacc d hd2

theorem pySplit_ws_free (s : String) :
    ∀ t ∈ pySplit s, ∀ c ∈ t.data, pyWS c = false := by
  intro t ht c hc
  unfold pySplit at ht
  rcases List.mem_map.mp ht with ⟨l, hl, rfl⟩
  exact splitWSAux_ws_free s.data [] (by intro d hd; exact absurd hd (List.not_mem_nil d)) l hl c hc

theorem load_loop_all_fail : ∀ (remaining k : Nat) (a : Nat → Bool) (d c : Bool),
    (∀ j, j < remaining → a (k + j) = false) →
    load_loop a d c k remaining
      = (if !d then .fatal else if !c then .fatal else .recreated) := by
  intro remaining
  induction remaining with
  | zero => intro k a d c _; rfl
  | succ n ih =>
    intro k a d c hall
    have h0 : a k = false := by simpa using hall 0 (Nat.succ_pos n)
    show (if a k = true then LoadResult.proceeded else load_loop a d c (k + 1) n)
      = (if !d then .fatal else if !c then .fatal else .recreated)
    rw [h0, if_neg Bool.false_ne_true]
    refine ih (k + 1) a d c ?_
    intro j hj
    have harr : k + 1 + j = k + (j + 1) := by omega
    rw [harr]
    exact hall (j + 1) (by omega)

theorem load_loop_success : ∀ (remaining k i : Nat) (a : Nat → Bool) (d c : Bool),
    i < remaining → a (k + i) = true → (∀ j, j < i → a (k + j) = false) →
    load_loop a d c k remaining = .proceeded := by
  intro remaining
  induction remaining with
  | zero => intro k i a d c hi _ _; exact absurd hi (Nat.not_lt_zero i)
  | succ n ih =>
    intro k i a d c hi hsucc hprev
    show (if a k = true then LoadResult.proceeded else load_loop a d c (k + 1) n)
      = LoadResult.proceeded
    cases i with
    | zero =>
      have h0 : a k = true := by simpa using hsucc
      rw [h0, if_pos rfl]
    | succ m =>
      have h0 : a k = false := by simpa using hprev 0 (Nat.succ_pos m)
      rw [h0, if_neg Bool.false_ne_true]
      refine ih (k + 1) m a d c (by omega) ?_ ?_
      · have harr : k + 1 + m = k + (m + 1) := by omega
        rw [harr]
        exact hsucc
      · intro j hj
        have harr : k + 1 + j = k + (j + 1) := by omega
        rw [harr]
        exact hprev (j + 1) (by omega)

theorem price_range_ok_az : price_range_ok 0 115 100 120 = true := by
  simp [price_range_ok, isclose, relTol]
  norm_num

theorem az_no_condition_skip : ¬ condition_skip .New azOffer := by
  rintro ⟨act, hact, hlow⟩
  have h : some "submit_new_offer" = some act := hact
  obtain rfl := Option.some.inj h
  exact absurd hlow (by decide)

theorem check_stock_az :
    check_stock_offers true .New 100 120 [azOffer]
      = .bought "Amazon" azOffer := by
  refine check_stock_cons_result _ _ _ _ _ _ _ ?_
  rw [evalOffer_eq_main true .New 100 120 azOffer 0 rfl (Or.inl rfl)]
  refine evalOfferMain_qualify .New 100 120 azOffer 115 "Amazon"
    az_no_condition_skip (by decide) rfl ?_
  rw [Bool.and_eq_true]
  exact ⟨price_range_ok_az, by decide⟩

theorem evalOffer_tp_skipped :
    evalOffer true .New 100 120 tpOffer = none := by
  rw [evalOffer_eq_main true .New 100 120 tpOffer 0 rfl (Or.inl rfl)]
  refine evalOfferMain_fail_filters .New 100 120 tpOffer 110 "ThirdPartyCo"
    (by decide) rfl ?_
  rw [show sellerOk "ThirdPartyCo" = false from by decide, Bool.and_false]

theorem lookup_mem {α β : Type} [BEq α] [LawfulBEq α] :
    ∀ (l : List (α × β)) (a : α) (b : β), l.lookup a = some b → (a, b) ∈ l := by
  intro l
  induction l with
  | nil => intro a b h; exact Option.noConfusion h
  | cons p rest ih =>
    intro a b h
    obtain ⟨k, v⟩ := p
    rw [List.lookup_cons] at h
    cases hbeq : a == k with
    | true =>
      rw [hbeq] at h
      obtain rfl := Option.some.inj h
      obtain rfl := eq_of_beq hbeq
      exact List.mem_cons_self _ _
    | false =>
      rw [hbeq] at h
      exact List.mem_cons_of_mem _ (ih a b h)

/-- C9: for every label string, `AmazonItemCondition.from_str` returns
exactly the member-map lookup of the label with all whitespace and
hyphens removed (so whitespace and hyphen variation is tolerated), and
when no member name matches the cleaned label it raises
`NotImplementedError` (embedded as `none`) instead of silently returning
a default such as `Unknown`; witnessed on concrete labels. -/
theorem c9_from_str_cleaned_lookup :
    (∀ label : String, from_str label = condLookup (cleanLabel label))
    ∧ from_str "Used Good" = some .UsedGood
    ∧ from_str "Used-Like New" = some .UsedLikeNew
    ∧ from_str "Open_box" = some .Open_box
    ∧ from_str "Mint" = none := by
  refine ⟨?_, by decide, by decide, by decide, by decide⟩
  intro label
  unfold from_str
  cases h : condLookup label with
  | none => rfl
  | some c =>
    have hmem : (label, c) ∈ condMembers := lookup_mem condMembers label c h
    have hclean : cleanLabel label = label := by
      simp only [condMembers, List.mem_cons, List.not_mem_nil, or_false,
        Prod.mk.injEq] at hmem
      rcases hmem with ⟨rfl, -⟩ | ⟨rfl, -⟩ | ⟨rfl, -⟩ | ⟨rfl, -⟩ | ⟨rfl, -⟩
        | ⟨rfl, -⟩ | ⟨rfl, -⟩ | ⟨rfl, -⟩ | ⟨rfl, -⟩ | ⟨rfl, -⟩ | ⟨rfl, -⟩
        | ⟨rfl, -⟩ | ⟨rfl, -⟩ | ⟨rfl, -⟩ <;> decide
    rw [hclean, h]

/-- C4: in the offer-evaluation loop of `check_stock`, an offer whose
form action classifies it strictly below the configured condition is
skipped (the loop continues with the rest), and the skip test fails —
the offer passes the condition filter — exactly when the offer condition
value is at most the configured value; with configured maximum
`UsedGood` (60), `UsedVeryGood` (50) and `UsedGood` (60) pass while
`UsedAcceptable` (70) is rejected. -/
theorem c4_condition_filter :
    (∀ (cap : AmazonItemCondition) (rmin rmax : ℚ) (o : StockOffer)
        (rest : List StockOffer) (act : String),
        o.formAction = some act →
        condition_too_low (get_item_condition act) cap = true →
        check_stock_offers true cap rmin rmax (o :: rest)
          = check_stock_offers true cap rmin rmax rest)
    ∧ (∀ v cap : AmazonItemCondition,
        condition_too_low v cap = false ↔ v.value ≤ cap.value)
    ∧ condition_too_low .UsedVeryGood .UsedGood = false
    ∧ condition_too_low .UsedGood .UsedGood = false
    ∧ condition_too_low .UsedAcceptable .UsedGood = true
    ∧ AmazonItemCondition.value .UsedVeryGood = 50
    ∧ AmazonItemCondition.value .UsedGood = 60
    ∧ AmazonItemCondition.value .UsedAcceptable = 70 := by
  refine ⟨?_, ?_, by decide, by decide, by decide, rfl, rfl, rfl⟩
  · intro cap rmin rmax o rest act hact hlow
    refine check_stock_cons_skip _ _ _ _ _ _ ?_
    have h1 : evalOffer true cap rmin rmax o = evalOfferMain cap rmin rmax o := rfl
    rw [h1]
    exact evalOfferMain_condition_skip cap rmin rmax o act hact hlow
  · intro v cap
    unfold condition_too_low
    rw [decide_eq_false_iff_not]
    exact not_lt

/-- Witness for C4: a used offer against a condition cap of New is
skipped, so a single-offer list yields no purchase. -/
theorem c4_condition_filter_witness :
    check_stock_offers true .New 100 120 [usedOffer] = .noBuy := by
  have h := c4_condition_filter.1 .New 100 120 usedOffer [] "submit_used_offer"
    rfl (by decide)
  exact h.trans rfl

/-- C10: the seller name compared against the allow-list is the sixth
whitespace-delimited token of the add-to-cart button aria-label; for
every aria-label with at least six tokens that token contains no
whitespace, hence never equals `"Amazon Resale"`, so the seller test can
pass only when the token equals `"Amazon"` or `"Amazon.com"`, and the
token is one of the aria-label's tokens. -/
theorem c10_seller_token :
    ∀ (aria tok : String), (pySplit aria).get? 5 = some tok →
      (∀ c ∈ tok.data, pyWS c = false)
      ∧ tok ≠ "Amazon Resale"
      ∧ (sellerOk tok = true ↔ tok = "Amazon" ∨ tok = "Amazon.com")
      ∧ tok ∈ pySplit aria := by
  intro aria tok h
  have hmem : tok ∈ pySplit aria := List.get?_mem h
  have hws := pySplit_ws_free aria tok hmem
  have hne : tok ≠ "Amazon Resale" := by
    intro heq
    have hsp : (Char.ofNat 32) ∈ tok.data := by rw [heq]; decide
    exact absurd (hws (Char.ofNat 32) hsp) (by decide)
  refine ⟨hws, hne, ?_, hmem⟩
  constructor
  · intro hs
    unfold sellerOk at hs
    rcases Bool.or_eq_true _ _ |>.mp hs with hs1 | hs2
    · rcases Bool.or_eq_true _ _ |>.mp hs1 with hs3 | hs4
      · exact absurd (of_decide_eq_true hs3) hne
      · exact Or.inl (of_decide_eq_true hs4)
    · exact Or.inr (of_decide_eq_true hs2)
  · rintro (rfl | rfl) <;> decide

/-- Witness for C10 at a concrete aria-label whose sixth token is
`Amazon`. -/
theorem c10_seller_token_witness :
    sellerOk "Amazon" = true ∧ "Amazon" ≠ "Amazon Resale" := by
  have h := c10_seller_token "Add to Cart from seller Amazon price 115.00"
    "Amazon" (by decide)
  exact ⟨h.2.2.1.mpr (Or.inl rfl), h.2.1⟩

/-- C2: an offer is selected for purchase by the offer-evaluation loop
only when the compared seller name is exactly one of `"Amazon Resale"`,
`"Amazon"`, `"Amazon.com"`; the match is exact and case-sensitive, so
`"Amazon Warehouse"`, `"amazon"`, `"AMAZON.COM"` and `"Amazon.Com"`
never pass the seller test, regardless of price, shipping, or
condition. -/
theorem c2_seller_allow_list :
    (∀ (cs : Bool) (cap : AmazonItemCondition) (rmin rmax : ℚ)
        (offers : List StockOffer) (s : String) (o : StockOffer),
        check_stock_offers cs cap rmin rmax offers = .bought s o →
        s = "Amazon Resale" ∨ s = "Amazon" ∨ s = "Amazon.com")
    ∧ sellerOk "Amazon Warehouse" = false
    ∧ sellerOk "amazon" = false
    ∧ sellerOk "AMAZON.COM" = false
    ∧ sellerOk "Amazon.Com" = false := by
  refine ⟨?_, by decide, by decide, by decide, by decide⟩
  intro cs cap rmin rmax offers s o h
  have hs := check_stock_offers_bought_sellerOk cs cap rmin rmax offers s o h
  unfold sellerOk at hs
  rcases Bool.or_eq_true _ _ |>.mp hs with h1 | h2
  · rcases Bool.or_eq_true _ _ |>.mp h1 with h3 | h4
    · exact Or.inl (of_decide_eq_true h3)
    · exact Or.inr (Or.inl (of_decide_eq_true h4))
  · exact Or.inr (Or.inr (of_decide_eq_true h2))

/-- Witness for C2: a concrete evaluation that does select an offer, with
the selected seller name in the allow-list. -/
theorem c2_seller_allow_list_witness :
    "Amazon" = "Amazon Resale" ∨ "Amazon" = "Amazon" ∨ "Amazon" = "Amazon.com" :=
  c2_seller_allow_list.1 true .New 100 120 [azOffer] "Amazon" azOffer check_stock_az

/-- C1 (amended): in `Amazon.check_stock`'s offer-evaluation loop a
well-parsed offer failing the shipping gate, the condition filter, or the
price-range/seller qualification is skipped and the loop continues with
the later offers, and a well-parsed offer passing all of them is the one
selected, so on the scenario offers the second (Amazon) offer is bought;
in `find_qualified_seller` of the hybrid implementation, however, a
returned qualifying offer is always the head of the list: a failed hurdle
returns `None` without ever evaluating later offers. -/
theorem c1_first_match :
    (∀ (cs : Bool) (cap : AmazonItemCondition) (rmin rmax : ℚ)
        (o : StockOffer) (rest : List StockOffer) (sa pa : ℚ) (tok : String),
        o.shipping = some sa → o.priceAmount = some pa →
        (pySplit o.ariaLabel).get? 5 = some tok →
        (shipping_skip cs o ∨ condition_skip cap o
          ∨ (price_range_ok (o.shipping.getD 0) pa rmin rmax && sellerOk tok) = false) →
        check_stock_offers cs cap rmin rmax (o :: rest)
          = check_stock_offers cs cap rmin rmax rest)
    ∧ (∀ (cs : Bool) (cap : AmazonItemCondition) (rmin rmax : ℚ)
        (o : StockOffer) (rest : List StockOffer) (sa pa : ℚ) (tok : String),
        o.shipping = some sa → o.priceAmount = some pa →
        (pySplit o.ariaLabel).get? 5 = some tok →
        ¬ shipping_skip cs o → ¬ condition_skip cap o →
        (price_range_ok (o.shipping.getD 0) pa rmin rmax && sellerOk tok) = true →
        check_stock_offers cs cap rmin rmax (o :: rest) = .bought tok o)
    ∧ check_stock_offers true .New 100 120 [tpOffer, azOffer]
        = .bought "Amazon" azOffer
    ∧ (∀ (cs : Bool) (item : FGItem) (sellers : List SellerDetail)
        (r : SellerDetail),
        find_qualified_seller cs item sellers = some r →
        sellers.head? = some r) := by
  refine ⟨?_, ?_, ?_, ?_⟩
  · intro cs cap rmin rmax o rest sa pa tok hsa hpa htok hskip
    refine check_stock_cons_skip _ _ _ _ _ _ ?_
    rcases hskip with ⟨hcs, sa2, hsa2, hpos⟩ | ⟨act, hact, hlow⟩ | hfail
    · obtain rfl := Option.some.inj (hsa.symm.trans hsa2)
      exact evalOffer_shipping_skip cs cap rmin rmax o sa hcs hsa hpos
    · cases cs with
      | true =>
        have hm : evalOffer true cap rmin rmax o = evalOfferMain cap rmin rmax o := rfl
        rw [hm]
        exact evalOfferMain_condition_skip cap rmin rmax o act hact hlow
      | false =>
        by_cases hpos : sa > 0
        · exact evalOffer_shipping_skip false cap rmin rmax o sa rfl hsa hpos
        · rw [evalOffer_eq_main false cap rmin rmax o sa hsa (Or.inr hpos)]
          exact evalOfferMain_condition_skip cap rmin rmax o act hact hlow
    · cases cs with
      | true =>
        have hm : evalOffer true cap rmin rmax o = evalOfferMain cap rmin rmax o := rfl
        rw [hm]
        exact evalOfferMain_fail_filters cap rmin rmax o pa tok htok hpa hfail
      | false =>
        by_cases hpos : sa > 0
        · exact evalOffer_shipping_skip false cap rmin rmax o sa rfl hsa hpos
        · rw [evalOffer_eq_main false cap rmin rmax o sa hsa (Or.inr hpos)]
          exact evalOfferMain_fail_filters cap rmin rmax o pa tok htok hpa hfail
  · intro cs cap rmin rmax o rest sa pa tok hsa hpa htok hnoship hnocond hok
    refine check_stock_cons_result _ _ _ _ _ _ _ ?_
    have hmain := evalOfferMain_qualify cap rmin rmax o pa tok hnocond htok hpa hok
    cases cs with
    | true =>
      have hm : evalOffer true cap rmin rmax o = evalOfferMain cap rmin rmax o := rfl
      rw [hm]
      exact hmain
    | false =>
      by_cases hpos : sa > 0
      · exact absurd ⟨rfl, sa, hsa, hpos⟩ hnoship
      · rw [evalOffer_eq_main false cap rmin rmax o sa hsa (Or.inr hpos)]
        exact hmain
  · rw [check_stock_cons_skip _ _ _ _ _ _ evalOffer_tp_skipped]
    exact check_stock_az
  · intro cs item sellers r h
    cases sellers with
    | nil => exact Option.noConfusion h
    | cons s rest =>
      have hstep : find_qualified_seller cs item (s :: rest)
          = (if !cs && !free_shipping_check s then none
             else if !condition_check item s then none
             else if !price_check item s then none
             else some s) := rfl
      rw [hstep] at h
      split_ifs at h
      all_goals first
        | exact Option.noConfusion h
        | (obtain rfl := Option.some.inj h; rfl)

/-- Witness for C1: the third-party offer fails only the seller filter,
and the loop moves on to the remaining offers. -/
theorem c1_first_match_witness :
    check_stock_offers true .New 100 120 [tpOffer, azOffer]
      = check_stock_offers true .New 100 120 [azOffer] := by
  refine c1_first_match.1 true .New 100 120 tpOffer [azOffer] 0 110
    "ThirdPartyCo" rfl rfl (by decide) ?_
  right; right
  rw [show sellerOk "ThirdPartyCo" = false from by decide, Bool.and_false]

/-- C1 counterexample: on the claim's scenario the hybrid qualifier
`find_qualified_seller` returns the FIRST offer — it has no seller-identity
hurdle and would have stopped at the first offer in any case — not the
second one the claim requires. -/
theorem c1_counterexample :
    find_qualified_seller false itemC1 [tpSeller, azSeller] = some tpSeller
    ∧ tpSeller ≠ azSeller := by
  constructor
  · norm_num [find_qualified_seller, free_shipping_check, condition_check,
      price_check, itemC1, tpSeller, AmazonItemCondition.value]
  · intro h
    exact absurd (congrArg SellerDetail.name h) (by decide)

/-- C3 (amended): over exact rationals, with `min <= max` and all
magnitudes at most `10^7` (so that the 1e-09 relative tolerance of
`math.isclose`, which the code leaves in effect, is dominated by the
absolute tolerance 0.01), the price filter accepts exactly when the total
lies between the bounds or within an absolute 0.01 of either bound. -/
theorem c3_price_filter :
    ∀ (ship price rmin rmax : ℚ), rmin ≤ rmax →
      |price + ship| ≤ 10 ^ 7 → |rmin| ≤ 10 ^ 7 → |rmax| ≤ 10 ^ 7 →
      (price_range_ok ship price rmin rmax = true
        ↔ in_range_eps (price + ship) rmin rmax) := by
  intro ship price rmin rmax hmm ht hmin hmax
  have hiso : ∀ b : ℚ, |b| ≤ 10 ^ 7 →
      (isclose (price + ship) b = true ↔ |price + ship - b| ≤ 1 / 100) := by
    intro b hb
    unfold isclose
    rw [decide_eq_true_eq]
    constructor
    · intro h
      refine le_trans h ?_
      refine max_le ?_ le_rfl
      have h1 : max |price + ship| |b| ≤ 10 ^ 7 := max_le ht hb
      calc relTol * max |price + ship| |b| ≤ relTol * 10 ^ 7 := by
            exact mul_le_mul_of_nonneg_left h1 (by norm_num [relTol])
        _ ≤ 1 / 100 := by norm_num [relTol]
    · intro h
      exact le_trans h (le_max_right _ _)
  unfold price_range_ok
  rw [Bool.and_eq_true, Bool.or_eq_true, Bool.or_eq_true,
    decide_eq_true_eq, decide_eq_true_eq, hiso rmax hmax, hiso rmin hmin]
  unfold in_range_eps
  constructor
  · rintro ⟨hA | hA, hB | hB⟩
    · exact Or.inl ⟨by linarith, by linarith⟩
    · exact Or.inr (Or.inl hB)
    · exact Or.inr (Or.inr hA)
    · exact Or.inr (Or.inl hB)
  · intro h
    rcases h with ⟨h1, h2⟩ | h1 | h1
    · exact ⟨Or.inl (by linarith), Or.inl (by linarith)⟩
    · constructor
      · rcases le_or_lt (ship + price) rmax with hc | hc
        · exact Or.inl hc
        · right
          rw [abs_le] at h1 ⊢
          constructor <;> linarith
      · exact Or.inr h1
    · constructor
      · exact Or.inr h1
      · rcases le_or_lt rmin (ship + price) with hc | hc
        · exact Or.inl hc
        · right
          rw [abs_le] at h1 ⊢
          constructor <;> linarith

/-- Witness for C3: the boundary offer 99.99 + 0.02 shipping qualifies
against the range 100.00 to 100.00 through the epsilon tolerance. -/
theorem c3_price_filter_witness :
    price_range_ok (2 / 100) (9999 / 100) 100 100 = true :=
  (c3_price_filter (2 / 100) (9999 / 100) 100 100 le_rfl
    (by rw [abs_le]; constructor <;> norm_num)
    (by rw [abs_le]; constructor <;> norm_num)
    (by rw [abs_le]; constructor <;> norm_num)).mpr
    (Or.inr (Or.inl (by rw [abs_le]; constructor <;> norm_num)))

/-- C3 counterexample: the relative tolerance `1e-09` that
`math.isclose` keeps at its default makes the code accept a total five
currency units above a bound of `10^10`, which the claim's pure absolute
epsilon of 0.01 rejects — so the claimed equivalence is false without a
magnitude restriction. -/
theorem c3_counterexample :
    price_range_ok 0 (10 ^ 10 + 5) (10 ^ 10) (10 ^ 10) = true
    ∧ ¬ in_range_eps ((10 : ℚ) ^ 10 + 5 + 0) (10 ^ 10) (10 ^ 10) := by
  constructor
  · unfold price_range_ok
    rw [Bool.and_eq_true, Bool.or_eq_true, Bool.or_eq_true]
    constructor
    · right
      unfold isclose
      rw [decide_eq_true_eq]
      have habs : |(10 : ℚ) ^ 10 + 5 + 0 - 10 ^ 10| = 5 := by norm_num
      rw [habs]
      refine le_trans ?_ (le_max_left _ _)
      have h1 : (10 : ℚ) ^ 10 ≤ max |(10 : ℚ) ^ 10 + 5 + 0| |(10 : ℚ) ^ 10| := by
        refine le_trans ?_ (le_max_right _ _)
        rw [abs_of_nonneg (by positivity)]
      calc (5 : ℚ) ≤ relTol * 10 ^ 10 := by norm_num [relTol]
        _ ≤ relTol * max |(10 : ℚ) ^ 10 + 5 + 0| |(10 : ℚ) ^ 10| :=
            mul_le_mul_of_nonneg_left h1 (by norm_num [relTol])
    · left
      rw [decide_eq_true_eq]
      norm_num
  · intro h
    rcases h with ⟨h1, h2⟩ | h1 | h1
    · norm_num at h2
    · norm_num at h1
    · norm_num at h1

/-- C5: evaluated on two group-sharing items, the removal pass of
`AmazonStoreHandler.run` leaves the second item of the purchased group in
the hunt list (removing while iterating skips the element that shifts
into the removed slot), contradicting the claim and the loop's own
comment; `Amazon.remove_asin_list` of the browser-driven implementation
does remove the whole matching group and only it. -/
theorem c5_group_removal :
    run_group_removal [itemA, itemB] "group-7" = [itemB]
    ∧ itemA.group_id = "group-7"
    ∧ itemB.group_id = "group-7"
    ∧ itemA.id = "ASIN-A"
    ∧ itemB.id = "ASIN-B"
    ∧ remove_asin_list "ASIN-A" [["ASIN-A", "ASIN-A2"], ["ASIN-B1"]]
        [0, 5] [10, 50] = ([["ASIN-B1"]], [5], [50]) := by
  refine ⟨?_, rfl, rfl, rfl, rfl, ?_⟩
  · simp [run_group_removal, removeGo, itemA, itemB]
  · rfl

/-- C6: the shipping-cost parser returns zero for a free-shipping phrase
(case-insensitively) and the parsed amount for `+ $5.00`, and absent
nodes yield zero — but on a span node whose first child span carries no
text it raises `AttributeError` instead of returning zero, so the
parser is not exception-free as the claim states. -/
theorem c6_shipping_costs :
    get_shipping_costs fragFree freeShippingPhrases = .ok FREE_SHIPPING_PRICE
    ∧ get_shipping_costs fragPaid freeShippingPhrases = .ok ⟨some "$", some 5⟩
    ∧ get_shipping_costs fragAbsent freeShippingPhrases = .ok FREE_SHIPPING_PRICE
    ∧ get_shipping_costs fragBad freeShippingPhrases
        = .error "AttributeError: NoneType object has no attribute strip" := by
  refine ⟨rfl, ?_, rfl, rfl⟩
  have h : get_shipping_costs fragPaid freeShippingPhrases
      = .ok ⟨some "$", some ((5 : ℚ) + (0 : ℚ) / (10 : ℚ) ^ 2)⟩ := rfl
  rw [h]
  norm_num

/-- C7: when every one of the first `DEFAULT_MAX_URL_FAIL = 5` load
attempts fails, the loop deletes and recreates the driver — raising the
fatal `RuntimeError` when either step fails and returning `False`
(resuming stock checks) when both succeed — and when some attempt among
the first five succeeds after the earlier ones failed, the loop proceeds
with the stock check. -/
theorem c7_load_retry :
    (∀ (attempt : Nat → Bool) (deleteOk createOk : Bool),
        (∀ k, k < DEFAULT_MAX_URL_FAIL → attempt k = false) →
        check_stock_load attempt deleteOk createOk
          = (if !deleteOk then .fatal else if !createOk then .fatal
             else .recreated))
    ∧ (∀ (attempt : Nat → Bool) (deleteOk createOk : Bool) (k : Nat),
        k < DEFAULT_MAX_URL_FAIL → attempt k = true →
        (∀ j, j < k → attempt j = false) →
        check_stock_load attempt deleteOk createOk = .proceeded) := by
  constructor
  · intro a d c hall
    refine load_loop_all_fail DEFAULT_MAX_URL_FAIL 0 a d c ?_
    intro j hj
    simpa using hall j hj
  · intro a d c k hk hsucc hprev
    refine load_loop_success DEFAULT_MAX_URL_FAIL 0 k a d c hk
      (by simpa using hsucc) ?_
    intro j hj
    simpa using hprev j hj

/-- Witness for C7: all five attempts failing with a failing teardown is
fatal; a success at the fourth attempt proceeds. -/
theorem c7_load_retry_witness :
    check_stock_load (fun _ => false) false true = .fatal
    ∧ check_stock_load (fun k => decide (k = 3)) true true = .proceeded := by
  constructor
  · exact (c7_load_retry.1 (fun _ => false) false true (fun k _ => rfl)).trans rfl
  · refine c7_load_retry.2 (fun k => decide (k = 3)) true true 3
      (by norm_num [DEFAULT_MAX_URL_FAIL]) (by decide) ?_
    intro j hj
    simp only [decide_eq_false_iff_not]
    omega

/-- C8 (amended): in the hybrid `parse_items` an entry missing a required
key is skipped while the remaining entries still load, an absent
configuration file is fatal in both implementations and an empty
`itemList` is fatal in the browser-driven one — but in
`Amazon.load_asin_config` a malformed entry is itself fatal (the
catch-all handler exits), not skipped. -/
theorem c8_config_parsing :
    (∀ (g : Nat) (bad : RawItem) (rest : List RawItem),
        bad.maxPrice = none ∨ bad.asins = none ∨ bad.minPrice = none →
        parse_items_from g (bad :: rest) = parse_items_from g rest)
    ∧ parse_items_from 0 [goodRaw1, badRaw, goodRaw2]
        = parse_items_from 0 [goodRaw1, goodRaw2]
    ∧ parse_config none = .error "exit(1): configuration file not found"
    ∧ load_asin_config none = .error .noConfigFile
    ∧ load_asin_config (some []) = .error .emptyItemList := by
  refine ⟨?_, rfl, rfl, rfl, rfl⟩
  intro g bad rest h
  rcases h with h | h | h <;>
    (cases hmx : bad.maxPrice <;> cases has : bad.asins <;>
      cases hmn : bad.minPrice <;> simp_all [parse_items_from])

/-- Witness for C8: a concrete malformed entry (missing `min-price`) is
skipped by `parse_items`. -/
theorem c8_config_parsing_witness :
    parse_items_from 0 [badRaw, goodRaw1] = parse_items_from 0 [goodRaw1] :=
  c8_config_parsing.1 0 badRaw [goodRaw1] (Or.inr (Or.inr rfl))

/-- C8 counterexample: a configuration whose second entry is malformed
makes `Amazon.load_asin_config` abort fatally instead of skipping the
entry and loading the rest. -/
theorem c8_counterexample :
    load_asin_config (some [goodA2Item, badA2Item]) = .error .badItem := rfl

end FairGame
